import Mathlib

/-!
Verification of the spot_ros2 robot-state publishing pipeline.

The repository sources under scrutiny are:
* `spot_driver_cpp/src/spot_image_publisher.cpp` — embedded directly below
  (`createImageRequest`, `SpotImagePublisher::initialize` as `spotImagePublisherInit`,
  `SpotImagePublisher::timerCallback`, `SpotImagePublisherNode`'s constructor).
* `spot_driver/test/src/robot_state/test_state_publisher.cpp` and
  `test_state_publisher_node.cpp` — tests of `StatePublisher` and `StatePublisherNode`,
  whose implementations are not among the sources; those two components are
  modelled from the specification (each such definition carries a
  `Modelled from the spec:` doc comment).
* mock/interface headers fixing the contract types (`tl::expected<T, std::string>`
  results, protobuf `Timestamp`/`Duration` time types).

C++ `tl::expected<T, std::string>` is rendered as `Except String T`.
-/

namespace SpotRos2

/-- Protobuf-style timestamp (`google.protobuf.Timestamp`): whole seconds plus
nanosecond remainder. Machine integer widths do not matter for any claim, so both
fields are unbounded `Int` with an explicit well-formedness predicate below. -/
structure PbTimestamp where
  seconds : Int
  nanos : Int
  deriving DecidableEq, Repr

/-- Protobuf-style signed duration (`google.protobuf.Duration`). -/
structure PbDuration where
  seconds : Int
  nanos : Int
  deriving DecidableEq, Repr

/-- Total nanosecond count represented by a timestamp. -/
def PbTimestamp.toNanos (t : PbTimestamp) : Int :=
  t.seconds * 1000000000 + t.nanos

/-- Total nanosecond count represented by a duration. -/
def PbDuration.toNanos (d : PbDuration) : Int :=
  d.seconds * 1000000000 + d.nanos

/-- Protobuf's validity constraint on a timestamp: nanos in `[0, 10^9)`. -/
def PbTimestamp.WF (t : PbTimestamp) : Prop :=
  0 ≤ t.nanos ∧ t.nanos < 1000000000

instance (t : PbTimestamp) : Decidable t.WF := by
  unfold PbTimestamp.WF; infer_instance

/-- The zero clock skew (both components zero), as produced by
`google::protobuf::Duration()` in the tests. -/
def PbDuration.zero : PbDuration := ⟨0, 0⟩

/-- Modelled from the spec: the time-sync implementation behind
`TimeSyncApi::convertRobotTimeToLocalTime` is not among the sources (only the
mock declaring its signature is). The spec fixes the contract
`local_time = robot_time + skew` with exact seconds/nanoseconds arithmetic;
the result is renormalized so that nanos lies in `[0, 10^9)`. -/
def convertRobotTimeToLocalTime (robotTimestamp : PbTimestamp) (skew : PbDuration) :
    PbTimestamp :=
  { seconds := (robotTimestamp.toNanos + skew.toNanos) / 1000000000
    nanos := (robotTimestamp.toNanos + skew.toNanos) % 1000000000 }

/-- One named spatial-transform edge of a robot state snapshot: parent and child
frame names, a robot-clock timestamp, and a translation + rotation payload. The
geometric components are doubles in the wire format; no claim computes with
them, so they are carried opaquely as integers (copied verbatim throughout). -/
structure TransformEdge where
  parentFrameName : String
  childFrameName : String
  stamp : PbTimestamp
  tx : Int
  ty : Int
  tz : Int
  qx : Int
  qy : Int
  qz : Int
  qw : Int
  deriving DecidableEq, Repr

/-- Raw robot state snapshot (`bosdyn.api.RobotState`, restricted to the fields
the pipeline touches): the kinematic-state acquisition timestamp, the frame the
kinematic root is expressed in, and the transforms snapshot. -/
structure RobotStateMsg where
  rootFrameName : String
  stamp : PbTimestamp
  transforms : List TransformEdge
  deriving DecidableEq, Repr

/-- Construction-time configuration of the state publisher (spec §6). -/
structure StatePublisherConfig where
  preferredOdomFrame : String
  namePfx : String
  deriving DecidableEq, Repr

/-- Modelled from the spec: the normalization step (spec §4.4 step 3) of the
absent `StatePublisher` implementation. Every timestamp gets the skew applied;
every frame name (kinematic root and both endpoints of every transform edge) is
rewritten by prepending the configured name prefix; everything else is copied
verbatim. -/
def normalizeRobotState (namePfx : String) (skew : PbDuration) (raw : RobotStateMsg) :
    RobotStateMsg :=
  { rootFrameName := namePfx ++ raw.rootFrameName
    stamp := convertRobotTimeToLocalTime raw.stamp skew
    transforms := raw.transforms.map fun e =>
      { e with
        parentFrameName := namePfx ++ e.parentFrameName
        childFrameName := namePfx ++ e.childFrameName
        stamp := convertRobotTimeToLocalTime e.stamp skew } }

/-- Observable events of one `StatePublisher` tick, in the order they occur:
calls on the time-sync API, the state client, the middleware handle, the TF
interface, and the logger. -/
inductive Event where
  | callGetClockSkew
  | callGetRobotState (preferredOdomFrame : String)
  | callPublishRobotState (state : RobotStateMsg)
  | callSendDynamicTransforms (transforms : List TransformEdge)
  | logError (msg : String)
  deriving DecidableEq, Repr

/-- Environment of a single tick: what the injected collaborators would answer
if called (mirroring the mock results the tests program in). -/
structure TickEnv where
  getClockSkew : Except String PbDuration
  getRobotState : Except String RobotStateMsg

/-- Modelled from the spec: the timer callback of the absent `StatePublisher`
implementation (spec §4.4, tick algorithm), returning the tick's event trace.
Step order: 1. clock skew (failure: log once and stop); 2. state fetch with the
configured preferred odometry frame (failure: log once and stop); 3. normalize;
4. publish the normalized state unconditionally; 5. send dynamic transforms iff
the transform list is non-empty, silently skipping otherwise. -/
def statePublisherTick (cfg : StatePublisherConfig) (env : TickEnv) : List Event :=
  match env.getClockSkew with
  | .error e => [.callGetClockSkew, .logError ("Failed to get clock skew: " ++ e)]
  | .ok skew =>
    match env.getRobotState with
    | .error e =>
      [.callGetClockSkew, .callGetRobotState cfg.preferredOdomFrame,
       .logError ("Failed to get robot state: " ++ e)]
    | .ok raw =>
      let normalized := normalizeRobotState cfg.namePfx skew raw
      [.callGetClockSkew, .callGetRobotState cfg.preferredOdomFrame,
       .callPublishRobotState normalized] ++
      (if normalized.transforms.isEmpty then []
       else [.callSendDynamicTransforms normalized.transforms])

/-- Recognizer for clock-skew calls in a trace. -/
def Event.isGetClockSkew : Event → Bool
  | .callGetClockSkew => true
  | _ => false

/-- Recognizer for state-fetch calls in a trace. -/
def Event.isGetRobotState : Event → Bool
  | .callGetRobotState _ => true
  | _ => false

/-- Recognizer for telemetry-sink calls in a trace. -/
def Event.isPublishRobotState : Event → Bool
  | .callPublishRobotState _ => true
  | _ => false

/-- Recognizer for transform-sink calls in a trace. -/
def Event.isSendDynamicTransforms : Event → Bool
  | .callSendDynamicTransforms _ => true
  | _ => false

/-- Recognizer for error-log calls in a trace. -/
def Event.isLogError : Event → Bool
  | .logError _ => true
  | _ => false

/-- Recognizer for sink calls of either kind. -/
def Event.isSink (e : Event) : Bool :=
  e.isPublishRobotState || e.isSendDynamicTransforms

/-- Substring containment on strings, as character-list infix. -/
def ContainsSubstr (hay needle : String) : Prop :=
  needle.data <:+: hay.data

instance (hay needle : String) : Decidable (ContainsSubstr hay needle) := by
  unfold ContainsSubstr; infer_instance

/-- Every occurrence of a `q`-event in the list is strictly preceded by some
`p`-event: "p is attempted before q". -/
def AttemptedBefore {α : Type} (p q : α → Bool) (l : List α) : Prop :=
  ∀ j : Fin l.length, q (l.get j) = true →
    ∃ i : Fin l.length, (i : Nat) < (j : Nat) ∧ p (l.get i) = true

/-! ### State publisher node bootstrap

The `StatePublisherNode` implementation is not among the sources; only
`test_state_publisher_node.cpp` is. Its bootstrap (spec §4.3) is a strictly
ordered three-step sequence over the injected `SpotApi`:
`createRobot → authenticate → stateClientInterface`. -/

/-- Observable events of the bootstrap sequence run by `StatePublisherNode`'s
constructor. -/
inductive BootEvent where
  | callCreateRobot
  | callAuthenticate
  | callStateClientInterface
  | logError (msg : String)
  deriving DecidableEq, Repr

/-- What the injected `SpotApi`'s three bootstrap operations would answer. -/
structure BootEnv where
  createRobot : Except String Unit
  authenticate : Except String Unit
  stateClientInterface : Except String Unit

/-- Recognizer for `createRobot` calls in a bootstrap trace. -/
def BootEvent.isCreateRobot : BootEvent → Bool
  | .callCreateRobot => true
  | _ => false

/-- Recognizer for `authenticate` calls in a bootstrap trace. -/
def BootEvent.isAuthenticate : BootEvent → Bool
  | .callAuthenticate => true
  | _ => false

/-- Recognizer for `stateClientInterface` calls in a bootstrap trace. -/
def BootEvent.isStateClientInterface : BootEvent → Bool
  | .callStateClientInterface => true
  | _ => false

/-- Recognizer for error-log calls in a bootstrap trace. -/
def BootEvent.isLogError : BootEvent → Bool
  | .logError _ => true
  | _ => false

/-- Modelled from the spec: the constructor of the absent `StatePublisherNode`
implementation (spec §4.3, ConnectionBootstrap). Each step is attempted at most
once; any failure aborts the sequence immediately without attempting subsequent
steps, logs exactly one error naming the failing step, and surfaces a
construction failure (the constructor throws, rendered as `.error`). On full
success no error is logged and construction succeeds. -/
def statePublisherNodeConstruct (env : BootEnv) : Except String Unit × List BootEvent :=
  match env.createRobot with
  | .error e =>
    (.error e, [.callCreateRobot, .logError ("Failed to create robot: " ++ e)])
  | .ok _ =>
    match env.authenticate with
    | .error e =>
      (.error e,
       [.callCreateRobot, .callAuthenticate, .logError ("Failed to authenticate: " ++ e)])
    | .ok _ =>
      match env.stateClientInterface with
      | .error e =>
        (.error e,
         [.callCreateRobot, .callAuthenticate, .callStateClientInterface,
          .logError ("Failed to get state client interface: " ++ e)])
      | .ok _ =>
        (.ok (), [.callCreateRobot, .callAuthenticate, .callStateClientInterface])

/-! ### Image publisher

Embedded directly from `spot_driver_cpp/src/spot_image_publisher.cpp`. -/

/-- Image source kind (`SpotImageType` in `spot_image_sources.hpp`). -/
inductive SpotImageType where
  | RGB
  | DEPTH
  | DEPTH_REGISTERED
  deriving DecidableEq, Repr

/-- An image source: a camera name plus the kind of image it provides. -/
structure ImageSource where
  name : String
  type : SpotImageType
  deriving DecidableEq, Repr

/-- Wire image format (`bosdyn::api::Image_Format`), restricted to the values
`createImageRequest` writes. -/
inductive ImageFormat where
  | RAW
  | JPEG
  deriving DecidableEq, Repr

/-- Wire pixel format (`bosdyn::api::Image_PixelFormat`), restricted to the
values `createImageRequest` writes (RGB requests set RGB_U8, depth requests
leave it unset). -/
inductive PixelFormat where
  | UNSET
  | RGB_U8
  deriving DecidableEq, Repr

/-- One entry of a `bosdyn::api::GetImageRequest` as filled in by
`createImageRequest`. `quality_percent` is a double in the wire format; it is
only ever copied from the quality parameter or the constant 100, never computed
with, so it is carried as a rational. -/
structure ImageRequestItem where
  imageSourceName : String
  qualityPercent : Rat
  pixelFormat : PixelFormat
  imageFormat : ImageFormat
  deriving DecidableEq, Repr

/-- A `GetImageRequest` message: the ordered list of per-source requests. -/
abbrev GetImageRequest := List ImageRequestItem

/-- Constant `kDefaultDepthImageQuality = 100.0` of `spot_image_publisher.cpp`. -/
def kDefaultDepthImageQuality : Rat := 100

/-- Embeds `createImageRequest` of `spot_image_publisher.cpp` (lines 144-175):
one request entry per source, RGB sources getting the configured quality, the
RGB_U8 pixel format and RAW/JPEG depending on `get_raw_rgb_images`, depth and
registered-depth sources getting quality 100 and RAW. `toSpotImageSourceName`
lives in `spot_image_sources.cpp`, which is not among the sources; it is passed
in as the collaborator function `toName`. -/
def createImageRequest (toName : ImageSource → String) (sources : List ImageSource)
    (rgbImageQuality : Rat) (getRawRgbImages : Bool) : GetImageRequest :=
  sources.map fun source =>
    match source.type with
    | .RGB =>
      { imageSourceName := toName source
        qualityPercent := rgbImageQuality
        pixelFormat := .RGB_U8
        imageFormat := if getRawRgbImages then .RAW else .JPEG }
    | .DEPTH =>
      { imageSourceName := toName source
        qualityPercent := kDefaultDepthImageQuality
        pixelFormat := .UNSET
        imageFormat := .RAW }
    | .DEPTH_REGISTERED =>
      { imageSourceName := toName source
        qualityPercent := kDefaultDepthImageQuality
        pixelFormat := .UNSET
        imageFormat := .RAW }

/-- The image payloads returned by `getImages`: a map from sources to opaque
image data. -/
abbrev ImagesMap := List (ImageSource × String)

/-- Observable events of the image publisher (`std::cerr`/`std::cout` writes and
calls on the injected interfaces). -/
inductive ImgEvent where
  | cerrMsg (msg : String)
  | coutMsg (msg : String)
  | callCreateRobot (address : String)
  | callAuthenticate (username password : String)
  | callHasArm
  | callCreatePublishers (sources : List ImageSource)
  | callSetTimer
  | callGetImages (request : GetImageRequest)
  | callPublishImages (images : ImagesMap)
  deriving DecidableEq, Repr

/-- Recognizer for `authenticate` calls in an image-publisher trace. -/
def ImgEvent.isAuthenticate : ImgEvent → Bool
  | .callAuthenticate _ _ => true
  | _ => false

/-- Recognizer for `hasArm` calls in an image-publisher trace. -/
def ImgEvent.isHasArm : ImgEvent → Bool
  | .callHasArm => true
  | _ => false

/-- Recognizer for `std::cerr` writes in an image-publisher trace. -/
def ImgEvent.isCerr : ImgEvent → Bool
  | .cerrMsg _ => true
  | _ => false

/-- Recognizer for `publishImages` calls in an image-publisher trace. -/
def ImgEvent.isPublishImages : ImgEvent → Bool
  | .callPublishImages _ => true
  | _ => false

/-- Recognizer for `setTimer` calls in an image-publisher trace. -/
def ImgEvent.isSetTimer : ImgEvent → Bool
  | .callSetTimer => true
  | _ => false

/-- Environment of the image publisher: resolved parameter values and what the
injected Spot interface would answer. Parameter loading and the image-source
enumeration (`createImageSourcesList`, in `spot_image_sources.cpp`, not among
the sources) are external collaborators supplied here. -/
structure ImageEnv where
  address : Option String
  username : Option String
  password : Option String
  rgbImageQuality : Rat
  hasRgbCameras : Bool
  publishRgbImages : Bool
  publishDepthImages : Bool
  publishDepthRegisteredImages : Bool
  createRobotOk : Bool
  authenticateOk : Bool
  hasArm : Bool
  createImageSourcesList : Bool → Bool → Bool → Bool → List ImageSource
  toSpotImageSourceName : ImageSource → String
  getImages : GetImageRequest → Option ImagesMap

/-- Member state of `SpotImagePublisher` that `initialize` mutates:
`image_request_message_` (a `std::optional`, initially empty) and whether the
timer has been registered. -/
structure ImgState where
  imageRequestMessage : Option GetImageRequest
  timerSet : Bool
  deriving DecidableEq, Repr

/-- The member state of a freshly constructed `SpotImagePublisher`. -/
def ImgState.fresh : ImgState := { imageRequestMessage := none, timerSet := false }

/-- Embeds `SpotImagePublisher::initialize` of `spot_image_publisher.cpp`
(lines 190-250): validate the required address/username/password parameters
(each missing one writes one line to `std::cerr` and returns `false`); create
the robot and authenticate (each failure writes one line to `std::cerr` and
returns `false`, skipping everything after it); then build the image source
list (consulting `hasArm`), build and store the image request message, create
the publishers, register the timer, print the success line and return `true`. -/
def spotImagePublisherInit (env : ImageEnv) : Bool × ImgState × List ImgEvent :=
  match env.address with
  | none => (false, ImgState.fresh, [.cerrMsg "Failed to get address"])
  | some address =>
    match env.username with
    | none => (false, ImgState.fresh, [.cerrMsg "Failed to get username"])
    | some username =>
      match env.password with
      | none => (false, ImgState.fresh, [.cerrMsg "Failed to get password"])
      | some password =>
        if !env.createRobotOk then
          (false, ImgState.fresh,
           [.callCreateRobot address, .cerrMsg "Failed to create robot at IP address"])
        else if !env.authenticateOk then
          (false, ImgState.fresh,
           [.callCreateRobot address, .callAuthenticate username password,
            .cerrMsg "Failed to authenticate with robot"])
        else
          let sources := env.createImageSourcesList env.publishRgbImages
            env.publishDepthImages env.publishDepthRegisteredImages env.hasArm
          let request := createImageRequest env.toSpotImageSourceName sources
            env.rgbImageQuality false
          (true, { imageRequestMessage := some request, timerSet := true },
           [.callCreateRobot address, .callAuthenticate username password, .callHasArm,
            .callCreatePublishers sources, .callSetTimer, .coutMsg "connected to robot!"])

/-- Embeds `SpotImagePublisher::timerCallback` of `spot_image_publisher.cpp`
(lines 252-266): if the image request message was never initialized, return
silently; otherwise call `getImages`, and if it returned no value return
silently, else publish the fetched images. -/
def spotImagePublisherTimerCallback (st : ImgState) (env : ImageEnv) : List ImgEvent :=
  match st.imageRequestMessage with
  | none => []
  | some request =>
    match env.getImages request with
    | none => [.callGetImages request]
    | some images => [.callGetImages request, .callPublishImages images]

/-- Embeds the `SpotImagePublisherNode` constructor of
`spot_image_publisher.cpp` (lines 269-274): it builds the internal
`SpotImagePublisher` and calls `initialize()`, discarding the returned `Bool`.
The constructor has no failure path, so construction always yields a node
(`.ok`) holding whatever member state `initialize` left behind. -/
def spotImagePublisherNodeConstruct (env : ImageEnv) : Except String ImgState × List ImgEvent :=
  let r := spotImagePublisherInit env
  (.ok r.2.1, r.2.2)

/-- Whether a `tl::expected`-style result holds a value. -/
def resultIsOk {ε α : Type} : Except ε α → Bool
  | .ok _ => true
  | .error _ => false

/-! ### Concrete inputs used by the witness theorems -/

/-- Shared concrete tick configuration used by the witnesses below. -/
def wCfg : StatePublisherConfig := { preferredOdomFrame := "odom", namePfx := "" }

/-- Shared concrete raw state with one transform edge, mirroring
`makeRobotState(true)` of the tests: acquisition timestamp (100 s, 0 ns) and one
identity transform from `some_frame` to `some_other_frame`. -/
def wRawState : RobotStateMsg :=
  { rootFrameName := "odom"
    stamp := ⟨100, 0⟩
    transforms := [⟨"some_frame", "some_other_frame", ⟨100, 0⟩, 0, 0, 0, 0, 0, 0, 1⟩] }

/-- Concrete raw state with zero transform edges, mirroring
`makeRobotState(false)` of the tests. -/
def wRawStateNoTf : RobotStateMsg :=
  { rootFrameName := "odom", stamp := ⟨100, 0⟩, transforms := [] }

/-- Concrete tick environment in which the skew lookup fails with the message
of Scenario D. -/
def wEnvSkewFail : TickEnv :=
  { getClockSkew := .error "sync not established", getRobotState := .ok wRawState }

/-- Concrete tick environment in which the state fetch fails with the message
of Scenario C. -/
def wEnvFetchFail : TickEnv :=
  { getClockSkew := .ok PbDuration.zero, getRobotState := .error "connection reset" }

/-- Concrete tick environment of Scenario A: zero skew, a state with one
transform edge. -/
def wEnvSuccess : TickEnv :=
  { getClockSkew := .ok PbDuration.zero, getRobotState := .ok wRawState }

/-- Concrete tick environment of Scenario B: zero skew, a state with zero
transform edges. -/
def wEnvSuccessNoTf : TickEnv :=
  { getClockSkew := .ok PbDuration.zero, getRobotState := .ok wRawStateNoTf }

/-- Concrete bootstrap environment in which `createRobot` fails, mirroring
`ConstructionFailedCreateRobotFailure`. -/
def wBootEnvCreateFail : BootEnv :=
  { createRobot := .error "Create Robot Failed"
    authenticate := .ok ()
    stateClientInterface := .ok () }

/-- Concrete bootstrap environment in which `authenticate` fails, mirroring
`ConstructionFailedAuthenticateFailure`. -/
def wBootEnvAuthFail : BootEnv :=
  { createRobot := .ok ()
    authenticate := .error "Authenication Failed"
    stateClientInterface := .ok () }

/-- Concrete image-publisher environment in which all parameters are present
and every robot interaction succeeds, with `getImages` returning one image. -/
def wImgEnvOk : ImageEnv :=
  { address := some "10.0.0.3"
    username := some "user"
    password := some "hunter2"
    rgbImageQuality := 70
    hasRgbCameras := true
    publishRgbImages := true
    publishDepthImages := false
    publishDepthRegisteredImages := false
    createRobotOk := true
    authenticateOk := true
    hasArm := false
    createImageSourcesList := fun _ _ _ _ => [⟨"frontleft", .RGB⟩]
    toSpotImageSourceName := fun s => s.name
    getImages := fun _ => some [(⟨"frontleft", .RGB⟩, "imagedata")] }

/-- Concrete image-publisher environment identical to `wImgEnvOk` except that
`createRobot` fails. -/
def wImgEnvNoRobot : ImageEnv :=
  { wImgEnvOk with createRobotOk := false }

/-- Concrete image-publisher environment identical to `wImgEnvOk` except that
`authenticate` fails. -/
def wImgEnvAuthFail : ImageEnv :=
  { wImgEnvOk with authenticateOk := false }

/-! ### Tick trace shapes -/

/-- Every tick trace takes one of four shapes, matching the four outcomes:
skew failure, fetch failure, success without transforms, success with
transforms. -/
theorem statePublisherTick_shape (cfg : StatePublisherConfig) (env : TickEnv) :
    (∃ e, env.getClockSkew = .error e ∧
      statePublisherTick cfg env =
        [.callGetClockSkew, .logError ("Failed to get clock skew: " ++ e)]) ∨
    (∃ skew e, env.getClockSkew = .ok skew ∧ env.getRobotState = .error e ∧
      statePublisherTick cfg env =
        [.callGetClockSkew, .callGetRobotState cfg.preferredOdomFrame,
         .logError ("Failed to get robot state: " ++ e)]) ∨
    (∃ skew raw, env.getClockSkew = .ok skew ∧ env.getRobotState = .ok raw ∧
      raw.transforms = [] ∧
      statePublisherTick cfg env =
        [.callGetClockSkew, .callGetRobotState cfg.preferredOdomFrame,
         .callPublishRobotState (normalizeRobotState cfg.namePfx skew raw)]) ∨
    (∃ skew raw, env.getClockSkew = .ok skew ∧ env.getRobotState = .ok raw ∧
      raw.transforms ≠ [] ∧
      statePublisherTick cfg env =
        [.callGetClockSkew, .callGetRobotState cfg.preferredOdomFrame,
         .callPublishRobotState (normalizeRobotState cfg.namePfx skew raw),
         .callSendDynamicTransforms (normalizeRobotState cfg.namePfx skew raw).transforms]) := by
  unfold statePublisherTick
  cases hs : env.getClockSkew with
  | error e => exact Or.inl ⟨e, rfl, rfl⟩
  | ok skew =>
    cases hr : env.getRobotState with
    | error e => exact Or.inr (Or.inl ⟨skew, e, rfl, rfl, rfl⟩)
    | ok raw =>
      cases ht : raw.transforms with
      | nil =>
        refine Or.inr (Or.inr (Or.inl ⟨skew, raw, rfl, rfl, ht, ?_⟩))
        simp [normalizeRobotState, ht]
      | cons hd tl =>
        refine Or.inr (Or.inr (Or.inr ⟨skew, raw, rfl, rfl, by simp [ht], ?_⟩))
        simp [normalizeRobotState, ht]

/-- A string is a substring of anything obtained by prepending text to it. -/
theorem containsSubstr_append_left (p e : String) : ContainsSubstr (p ++ e) e := by
  refine ⟨p.data, [], ?_⟩
  simp [String.data_append]

/-- C1: for every tick in which the clock-skew lookup returns an error, the
state source is never called during that tick, neither the telemetry sink nor
the transform sink is called, and exactly one `logError` call is made, its
message containing the skew-lookup error string as a substring. -/
theorem skew_failure_isolation (cfg : StatePublisherConfig) (env : TickEnv) (e : String)
    (h : env.getClockSkew = .error e) :
    (statePublisherTick cfg env).countP Event.isGetRobotState = 0 ∧
    (statePublisherTick cfg env).countP Event.isPublishRobotState = 0 ∧
    (statePublisherTick cfg env).countP Event.isSendDynamicTransforms = 0 ∧
    (statePublisherTick cfg env).countP Event.isLogError = 1 ∧
    ∀ ev ∈ statePublisherTick cfg env, ev.isLogError = true →
      ∃ m, ev = .logError m ∧ ContainsSubstr m e := by
  simp only [statePublisherTick, h]
  refine ⟨by simp [List.countP_cons, Event.isGetRobotState, Event.isLogError],
    by simp [List.countP_cons, Event.isPublishRobotState, Event.isLogError],
    by simp [List.countP_cons, Event.isSendDynamicTransforms, Event.isLogError],
    by simp [List.countP_cons, Event.isLogError, Event.isGetClockSkew], ?_⟩
  intro ev hev hlog
  simp only [List.mem_cons, List.not_mem_nil, or_false] at hev
  rcases hev with rfl | rfl
  · simp [Event.isLogError] at hlog
  · exact ⟨_, rfl, containsSubstr_append_left _ e⟩

/-- Witness for C1 at Scenario D's concrete input. -/
theorem skew_failure_isolation_witness :
    (statePublisherTick wCfg wEnvSkewFail).countP Event.isGetRobotState = 0 ∧
    (statePublisherTick wCfg wEnvSkewFail).countP Event.isPublishRobotState = 0 ∧
    (statePublisherTick wCfg wEnvSkewFail).countP Event.isSendDynamicTransforms = 0 ∧
    (statePublisherTick wCfg wEnvSkewFail).countP Event.isLogError = 1 ∧
    ∀ ev ∈ statePublisherTick wCfg wEnvSkewFail, ev.isLogError = true →
      ∃ m, ev = .logError m ∧ ContainsSubstr m "sync not established" :=
  skew_failure_isolation wCfg wEnvSkewFail "sync not established" rfl

/-- C2: for every tick in which the clock-skew lookup succeeds but the state
fetch returns an error, neither the telemetry sink nor the transform sink is
called during that tick, and exactly one `logError` call is made, its message
containing the fetch error string as a substring. -/
theorem fetch_failure_isolation (cfg : StatePublisherConfig) (env : TickEnv)
    (skew : PbDuration) (e : String)
    (hs : env.getClockSkew = .ok skew) (hr : env.getRobotState = .error e) :
    (statePublisherTick cfg env).countP Event.isPublishRobotState = 0 ∧
    (statePublisherTick cfg env).countP Event.isSendDynamicTransforms = 0 ∧
    (statePublisherTick cfg env).countP Event.isLogError = 1 ∧
    ∀ ev ∈ statePublisherTick cfg env, ev.isLogError = true →
      ∃ m, ev = .logError m ∧ ContainsSubstr m e := by
  simp only [statePublisherTick, hs, hr]
  refine ⟨by simp [List.countP_cons, Event.isPublishRobotState],
    by simp [List.countP_cons, Event.isSendDynamicTransforms],
    by simp [List.countP_cons, Event.isLogError, Event.isGetClockSkew, Event.isGetRobotState],
    ?_⟩
  intro ev hev hlog
  simp only [List.mem_cons, List.not_mem_nil, or_false] at hev
  rcases hev with rfl | rfl | rfl
  · simp [Event.isLogError] at hlog
  · simp [Event.isLogError] at hlog
  · exact ⟨_, rfl, containsSubstr_append_left _ e⟩

/-- Witness for C2 at Scenario C's concrete input. -/
theorem fetch_failure_isolation_witness :
    (statePublisherTick wCfg wEnvFetchFail).countP Event.isPublishRobotState = 0 ∧
    (statePublisherTick wCfg wEnvFetchFail).countP Event.isSendDynamicTransforms = 0 ∧
    (statePublisherTick wCfg wEnvFetchFail).countP Event.isLogError = 1 ∧
    ∀ ev ∈ statePublisherTick wCfg wEnvFetchFail, ev.isLogError = true →
      ∃ m, ev = .logError m ∧ ContainsSubstr m "connection reset" :=
  fetch_failure_isolation wCfg wEnvFetchFail PbDuration.zero "connection reset" rfl rfl

/-- If the head of a list satisfies `p` but not `q`, then `p` is attempted
before `q` throughout the list. -/
theorem attemptedBefore_of_head {α : Type} (p q : α → Bool) (a : α) (l : List α)
    (hpa : p a = true) (hqa : q a = false) :
    AttemptedBefore p q (a :: l) := by
  rintro ⟨j, hj⟩ hq
  cases j with
  | zero =>
    have hq2 : q a = true := hq
    rw [hqa] at hq2
    exact Bool.noConfusion hq2
  | succ j =>
    exact ⟨⟨0, Nat.succ_pos _⟩, Nat.succ_pos _, hpa⟩

/-- If the first two elements of a list both fail `q` and the second satisfies
`p`, then `p` is attempted before `q` throughout the list. -/
theorem attemptedBefore_of_second {α : Type} (p q : α → Bool) (a b : α) (l : List α)
    (hqa : q a = false) (hqb : q b = false) (hpb : p b = true) :
    AttemptedBefore p q (a :: b :: l) := by
  rintro ⟨j, hj⟩ hq
  cases j with
  | zero =>
    have hq2 : q a = true := hq
    rw [hqa] at hq2
    exact Bool.noConfusion hq2
  | succ j =>
    cases j with
    | zero =>
      have hq2 : q b = true := hq
      rw [hqb] at hq2
      exact Bool.noConfusion hq2
    | succ j =>
      exact ⟨⟨1, Nat.succ_lt_succ (Nat.succ_pos _)⟩, by show 1 < j + 1 + 1; omega, hpb⟩

/-- If no element of a list satisfies `q`, then `p` is vacuously attempted
before `q` throughout the list. -/
theorem attemptedBefore_of_none {α : Type} (p q : α → Bool) (l : List α)
    (h : ∀ ev ∈ l, q ev = false) :
    AttemptedBefore p q l := by
  rintro ⟨j, hj⟩ hq
  rw [h (l.get ⟨j, hj⟩) (l.get_mem j hj)] at hq
  exact Bool.noConfusion hq

/-- C4: for every tick, the clock-skew retrieval is attempted before the state
fetch, the state fetch is attempted before any publish to either sink, and no
sink publish occurs unless both the skew lookup and the state fetch succeeded
in that tick. -/
theorem tick_ordering (cfg : StatePublisherConfig) (env : TickEnv) :
    AttemptedBefore Event.isGetClockSkew Event.isGetRobotState (statePublisherTick cfg env) ∧
    AttemptedBefore Event.isGetRobotState Event.isSink (statePublisherTick cfg env) ∧
    (∀ ev ∈ statePublisherTick cfg env, ev.isSink = true →
      resultIsOk env.getClockSkew = true ∧ resultIsOk env.getRobotState = true) := by
  rcases statePublisherTick_shape cfg env with
    ⟨e, hs, ht⟩ | ⟨skew, e, hs, hr, ht⟩ | ⟨skew, raw, hs, hr, hemp, ht⟩ |
    ⟨skew, raw, hs, hr, hne, ht⟩ <;> rw [ht]
  · refine ⟨attemptedBefore_of_head _ _ _ _ rfl rfl, attemptedBefore_of_none _ _ _ ?_, ?_⟩
    · intro ev hev
      simp only [List.mem_cons, List.not_mem_nil, or_false] at hev
      rcases hev with rfl | rfl <;> rfl
    · intro ev hev hsink
      simp only [List.mem_cons, List.not_mem_nil, or_false] at hev
      rcases hev with rfl | rfl <;> cases hsink
  · refine ⟨attemptedBefore_of_head _ _ _ _ rfl rfl,
      attemptedBefore_of_second _ _ _ _ _ rfl rfl rfl, ?_⟩
    intro ev hev hsink
    simp only [List.mem_cons, List.not_mem_nil, or_false] at hev
    rcases hev with rfl | rfl | rfl <;> cases hsink
  · exact ⟨attemptedBefore_of_head _ _ _ _ rfl rfl,
      attemptedBefore_of_second _ _ _ _ _ rfl rfl rfl,
      fun ev _ _ => ⟨by rw [hs]; rfl, by rw [hr]; rfl⟩⟩
  · exact ⟨attemptedBefore_of_head _ _ _ _ rfl rfl,
      attemptedBefore_of_second _ _ _ _ _ rfl rfl rfl,
      fun ev _ _ => ⟨by rw [hs]; rfl, by rw [hr]; rfl⟩⟩

/-- Witness for C4 at Scenario A's concrete input. -/
theorem tick_ordering_witness :
    AttemptedBefore Event.isGetClockSkew Event.isGetRobotState
      (statePublisherTick wCfg wEnvSuccess) ∧
    AttemptedBefore Event.isGetRobotState Event.isSink (statePublisherTick wCfg wEnvSuccess) ∧
    (∀ ev ∈ statePublisherTick wCfg wEnvSuccess, ev.isSink = true →
      resultIsOk wEnvSuccess.getClockSkew = true ∧
      resultIsOk wEnvSuccess.getRobotState = true) :=
  tick_ordering wCfg wEnvSuccess

/-- C5: for every tick in which skew lookup and state fetch both succeed, the
transform sink is invoked exactly once with the full corrected edge set when
the fetched state contains at least one transform edge, and is never invoked
(with no error logged) when the fetched state contains zero transform edges. -/
theorem conditional_transform_publish (cfg : StatePublisherConfig) (env : TickEnv)
    (skew : PbDuration) (raw : RobotStateMsg)
    (hs : env.getClockSkew = .ok skew) (hr : env.getRobotState = .ok raw) :
    (raw.transforms ≠ [] →
      (statePublisherTick cfg env).countP Event.isSendDynamicTransforms = 1 ∧
      Event.callSendDynamicTransforms (normalizeRobotState cfg.namePfx skew raw).transforms ∈
        statePublisherTick cfg env) ∧
    (raw.transforms = [] →
      (statePublisherTick cfg env).countP Event.isSendDynamicTransforms = 0 ∧
      (statePublisherTick cfg env).countP Event.isLogError = 0) := by
  constructor
  · intro hne
    have hne2 : ¬ (normalizeRobotState cfg.namePfx skew raw).transforms.isEmpty = true := by
      simp [normalizeRobotState, List.isEmpty_iff, hne]
    simp only [statePublisherTick, hs, hr, hne2, if_neg]
    constructor
    · simp [List.countP_cons, List.countP_append, Event.isSendDynamicTransforms]
    · simp
  · intro hemp
    have hemp2 : (normalizeRobotState cfg.namePfx skew raw).transforms.isEmpty = true := by
      simp [normalizeRobotState, List.isEmpty_iff, hemp]
    simp only [statePublisherTick, hs, hr, hemp2, if_pos]
    constructor
    · simp [List.countP_cons, List.countP_append, Event.isSendDynamicTransforms]
    · simp [List.countP_cons, List.countP_append, Event.isLogError]

/-- Witness for C5 at Scenario A's concrete input (one transform edge) and
Scenario B's concrete input (zero transform edges). -/
theorem conditional_transform_publish_witness :
    ((wRawState.transforms ≠ [] →
      (statePublisherTick wCfg wEnvSuccess).countP Event.isSendDynamicTransforms = 1 ∧
      Event.callSendDynamicTransforms
          (normalizeRobotState wCfg.namePfx PbDuration.zero wRawState).transforms ∈
        statePublisherTick wCfg wEnvSuccess) ∧
     (wRawState.transforms = [] →
      (statePublisherTick wCfg wEnvSuccess).countP Event.isSendDynamicTransforms = 0 ∧
      (statePublisherTick wCfg wEnvSuccess).countP Event.isLogError = 0)) ∧
    ((wRawStateNoTf.transforms ≠ [] →
      (statePublisherTick wCfg wEnvSuccessNoTf).countP Event.isSendDynamicTransforms = 1 ∧
      Event.callSendDynamicTransforms
          (normalizeRobotState wCfg.namePfx PbDuration.zero wRawStateNoTf).transforms ∈
        statePublisherTick wCfg wEnvSuccessNoTf) ∧
     (wRawStateNoTf.transforms = [] →
      (statePublisherTick wCfg wEnvSuccessNoTf).countP Event.isSendDynamicTransforms = 0 ∧
      (statePublisherTick wCfg wEnvSuccessNoTf).countP Event.isLogError = 0)) :=
  ⟨conditional_transform_publish wCfg wEnvSuccess PbDuration.zero wRawState rfl rfl,
   conditional_transform_publish wCfg wEnvSuccessNoTf PbDuration.zero wRawStateNoTf rfl rfl⟩

/-- C6: for every tick in which skew lookup and state fetch both succeed, the
telemetry sink is invoked exactly once with the normalized state, regardless of
whether the fetched state contains zero or more transform edges. -/
theorem unconditional_telemetry_publish (cfg : StatePublisherConfig) (env : TickEnv)
    (skew : PbDuration) (raw : RobotStateMsg)
    (hs : env.getClockSkew = .ok skew) (hr : env.getRobotState = .ok raw) :
    (statePublisherTick cfg env).countP Event.isPublishRobotState = 1 ∧
    Event.callPublishRobotState (normalizeRobotState cfg.namePfx skew raw) ∈
      statePublisherTick cfg env := by
  simp only [statePublisherTick, hs, hr]
  constructor
  · cases h : (normalizeRobotState cfg.namePfx skew raw).transforms.isEmpty <;>
      simp [h, List.countP_cons, List.countP_append, Event.isPublishRobotState]
  · cases h : (normalizeRobotState cfg.namePfx skew raw).transforms.isEmpty <;>
      simp [h]

/-- Witness for C6 at Scenario B's concrete input (zero transform edges). -/
theorem unconditional_telemetry_publish_witness :
    (statePublisherTick wCfg wEnvSuccessNoTf).countP Event.isPublishRobotState = 1 ∧
    Event.callPublishRobotState
        (normalizeRobotState wCfg.namePfx PbDuration.zero wRawStateNoTf) ∈
      statePublisherTick wCfg wEnvSuccessNoTf :=
  unconditional_telemetry_publish wCfg wEnvSuccessNoTf PbDuration.zero wRawStateNoTf rfl rfl

/-- C7: for every raw timestamp at robot-time T and every clock skew S, the
conversion satisfies `local = robot + skew` with exact seconds/nanoseconds
arithmetic; with S = 0 a well-formed timestamp is unchanged; and the normalized
state's published timestamp equals exactly T + S. -/
theorem timestamp_correction (t : PbTimestamp) (s : PbDuration) (namePfx : String)
    (raw : RobotStateMsg) :
    (convertRobotTimeToLocalTime t s).toNanos = t.toNanos + s.toNanos ∧
    (t.WF → convertRobotTimeToLocalTime t PbDuration.zero = t) ∧
    (normalizeRobotState namePfx s raw).stamp.toNanos = raw.stamp.toNanos + s.toNanos := by
  refine ⟨?_, ?_, ?_⟩
  · simp only [convertRobotTimeToLocalTime, PbTimestamp.toNanos, PbDuration.toNanos]
    omega
  · rintro ⟨h1, h2⟩
    cases t with
    | mk seconds nanos =>
      simp only [convertRobotTimeToLocalTime, PbTimestamp.toNanos, PbDuration.toNanos,
        PbDuration.zero, PbTimestamp.mk.injEq]
      constructor <;> simp_all <;> omega
  · show (convertRobotTimeToLocalTime raw.stamp s).toNanos = _
    simp only [convertRobotTimeToLocalTime, PbTimestamp.toNanos, PbDuration.toNanos]
    omega

/-- Witness for C7 at Scenario A's concrete input: timestamp (100 s, 0 ns),
zero skew. -/
theorem timestamp_correction_witness :
    (convertRobotTimeToLocalTime ⟨100, 0⟩ PbDuration.zero).toNanos =
      PbTimestamp.toNanos ⟨100, 0⟩ + PbDuration.zero.toNanos ∧
    (PbTimestamp.WF ⟨100, 0⟩ →
      convertRobotTimeToLocalTime ⟨100, 0⟩ PbDuration.zero = ⟨100, 0⟩) ∧
    (normalizeRobotState wCfg.namePfx PbDuration.zero wRawState).stamp.toNanos =
      wRawState.stamp.toNanos + PbDuration.zero.toNanos :=
  timestamp_correction ⟨100, 0⟩ PbDuration.zero wCfg.namePfx wRawState

/-- C8: in every normalized state, the kinematic root frame name and both
endpoint frame names of every transform edge begin with the configured name
prefix and are otherwise equal to the raw frame names; with the empty prefix
every frame name is unchanged. -/
theorem frame_rename (namePfx : String) (skew : PbDuration) (raw : RobotStateMsg) :
    (normalizeRobotState namePfx skew raw).rootFrameName = namePfx ++ raw.rootFrameName ∧
    namePfx.data <+: (normalizeRobotState namePfx skew raw).rootFrameName.data ∧
    (∀ e ∈ (normalizeRobotState namePfx skew raw).transforms,
      namePfx.data <+: e.parentFrameName.data ∧ namePfx.data <+: e.childFrameName.data) ∧
    (∀ e0 ∈ raw.transforms, ∃ e ∈ (normalizeRobotState namePfx skew raw).transforms,
      e.parentFrameName = namePfx ++ e0.parentFrameName ∧
      e.childFrameName = namePfx ++ e0.childFrameName) ∧
    (namePfx = "" →
      (normalizeRobotState namePfx skew raw).rootFrameName = raw.rootFrameName ∧
      (normalizeRobotState namePfx skew raw).transforms.map TransformEdge.parentFrameName =
        raw.transforms.map TransformEdge.parentFrameName ∧
      (normalizeRobotState namePfx skew raw).transforms.map TransformEdge.childFrameName =
        raw.transforms.map TransformEdge.childFrameName) := by
  refine ⟨rfl, ?_, ?_, ?_, ?_⟩
  · show namePfx.data <+: (namePfx ++ raw.rootFrameName).data
    rw [String.data_append]
    exact List.prefix_append _ _
  · intro e he
    simp only [normalizeRobotState, List.mem_map] at he
    obtain ⟨e0, _, rfl⟩ := he
    constructor <;> · rw [String.data_append]; exact List.prefix_append _ _
  · intro e0 he0
    refine ⟨{ e0 with
        parentFrameName := namePfx ++ e0.parentFrameName
        childFrameName := namePfx ++ e0.childFrameName
        stamp := convertRobotTimeToLocalTime e0.stamp skew }, ?_, rfl, rfl⟩
    simp only [normalizeRobotState, List.mem_map]
    exact ⟨e0, he0, rfl⟩
  · rintro rfl
    refine ⟨String.empty_append _, ?_, ?_⟩ <;>
      simp [normalizeRobotState, String.empty_append]

/-- Witness for C8 at the test's concrete input: prefix `"spot/"` over the raw
state with the edge from `some_frame` to `some_other_frame`, and the empty
prefix over the same state. -/
theorem frame_rename_witness :
    (normalizeRobotState "spot/" PbDuration.zero wRawState).rootFrameName =
      "spot/" ++ wRawState.rootFrameName ∧
    (normalizeRobotState "" PbDuration.zero wRawState).rootFrameName =
      wRawState.rootFrameName ∧
    (normalizeRobotState "" PbDuration.zero wRawState).transforms.map
        TransformEdge.parentFrameName =
      wRawState.transforms.map TransformEdge.parentFrameName :=
  ⟨(frame_rename "spot/" PbDuration.zero wRawState).1,
   ((frame_rename "" PbDuration.zero wRawState).2.2.2.2 rfl).1,
   ((frame_rename "" PbDuration.zero wRawState).2.2.2.2 rfl).2.1⟩

/-- C3: in the bootstrap sequence, a session-creation failure means the
authentication and state-source-acquisition steps are never invoked,
construction fails, and exactly one error is logged; an authentication failure
means state-source acquisition is never invoked, construction fails, and
exactly one error is logged. The same short-circuiting holds in the embedded
`SpotImagePublisher::initialize`, where each failure emits exactly one
`std::cerr` line and makes the bootstrap report failure. -/
theorem bootstrap_atomicity (env : BootEnv) (imgEnv : ImageEnv) :
    (∀ e, env.createRobot = .error e →
      ((statePublisherNodeConstruct env).2.countP BootEvent.isAuthenticate = 0 ∧
       (statePublisherNodeConstruct env).2.countP BootEvent.isStateClientInterface = 0 ∧
       resultIsOk (statePublisherNodeConstruct env).1 = false ∧
       (statePublisherNodeConstruct env).2.countP BootEvent.isLogError = 1)) ∧
    (∀ e, env.authenticate = .error e → resultIsOk env.createRobot = true →
      ((statePublisherNodeConstruct env).2.countP BootEvent.isStateClientInterface = 0 ∧
       resultIsOk (statePublisherNodeConstruct env).1 = false ∧
       (statePublisherNodeConstruct env).2.countP BootEvent.isLogError = 1)) ∧
    (imgEnv.address.isSome = true → imgEnv.username.isSome = true →
      imgEnv.password.isSome = true → imgEnv.createRobotOk = false →
      ((spotImagePublisherInit imgEnv).1 = false ∧
       (spotImagePublisherInit imgEnv).2.2.countP ImgEvent.isAuthenticate = 0 ∧
       (spotImagePublisherInit imgEnv).2.2.countP ImgEvent.isCerr = 1)) ∧
    (imgEnv.address.isSome = true → imgEnv.username.isSome = true →
      imgEnv.password.isSome = true → imgEnv.createRobotOk = true →
      imgEnv.authenticateOk = false →
      ((spotImagePublisherInit imgEnv).1 = false ∧
       (spotImagePublisherInit imgEnv).2.2.countP ImgEvent.isHasArm = 0 ∧
       (spotImagePublisherInit imgEnv).2.2.countP ImgEvent.isCerr = 1)) := by
  refine ⟨?_, ?_, ?_, ?_⟩
  · intro e he
    simp [statePublisherNodeConstruct, he, List.countP_cons, BootEvent.isAuthenticate,
      BootEvent.isStateClientInterface, BootEvent.isLogError, resultIsOk]
  · intro e he hcr
    rcases hc : env.createRobot with e2 | u
    · rw [hc] at hcr; exact absurd hcr (by simp [resultIsOk])
    · simp [statePublisherNodeConstruct, hc, he, List.countP_cons, BootEvent.isAuthenticate,
        BootEvent.isStateClientInterface, BootEvent.isLogError, resultIsOk]
  · intro ha hu hp hcr
    rcases hav : imgEnv.address with _ | address
    · rw [hav] at ha; exact absurd ha (by simp)
    rcases huv : imgEnv.username with _ | username
    · rw [huv] at hu; exact absurd hu (by simp)
    rcases hpv : imgEnv.password with _ | password
    · rw [hpv] at hp; exact absurd hp (by simp)
    simp [spotImagePublisherInit, hav, huv, hpv, hcr, List.countP_cons,
      ImgEvent.isAuthenticate, ImgEvent.isCerr]
  · intro ha hu hp hcr hau
    rcases hav : imgEnv.address with _ | address
    · rw [hav] at ha; exact absurd ha (by simp)
    rcases huv : imgEnv.username with _ | username
    · rw [huv] at hu; exact absurd hu (by simp)
    rcases hpv : imgEnv.password with _ | password
    · rw [hpv] at hp; exact absurd hp (by simp)
    simp [spotImagePublisherInit, hav, huv, hpv, hcr, hau, List.countP_cons,
      ImgEvent.isAuthenticate, ImgEvent.isCerr, ImgEvent.isHasArm]

/-- Witness for C3 at the tests' concrete inputs: a bootstrap environment whose
`createRobot` fails, one whose `authenticate` fails, and image-publisher
environments failing at the same two steps. -/
theorem bootstrap_atomicity_witness :
    ((statePublisherNodeConstruct wBootEnvCreateFail).2.countP BootEvent.isAuthenticate = 0 ∧
     (statePublisherNodeConstruct wBootEnvCreateFail).2.countP
       BootEvent.isStateClientInterface = 0 ∧
     resultIsOk (statePublisherNodeConstruct wBootEnvCreateFail).1 = false ∧
     (statePublisherNodeConstruct wBootEnvCreateFail).2.countP BootEvent.isLogError = 1) ∧
    ((statePublisherNodeConstruct wBootEnvAuthFail).2.countP
       BootEvent.isStateClientInterface = 0 ∧
     resultIsOk (statePublisherNodeConstruct wBootEnvAuthFail).1 = false ∧
     (statePublisherNodeConstruct wBootEnvAuthFail).2.countP BootEvent.isLogError = 1) ∧
    ((spotImagePublisherInit wImgEnvNoRobot).1 = false ∧
     (spotImagePublisherInit wImgEnvNoRobot).2.2.countP ImgEvent.isAuthenticate = 0 ∧
     (spotImagePublisherInit wImgEnvNoRobot).2.2.countP ImgEvent.isCerr = 1) ∧
    ((spotImagePublisherInit wImgEnvAuthFail).1 = false ∧
     (spotImagePublisherInit wImgEnvAuthFail).2.2.countP ImgEvent.isHasArm = 0 ∧
     (spotImagePublisherInit wImgEnvAuthFail).2.2.countP ImgEvent.isCerr = 1) :=
  ⟨(bootstrap_atomicity wBootEnvCreateFail wImgEnvNoRobot).1 "Create Robot Failed" rfl,
   (bootstrap_atomicity wBootEnvAuthFail wImgEnvNoRobot).2.1 "Authenication Failed" rfl rfl,
   (bootstrap_atomicity wBootEnvCreateFail wImgEnvNoRobot).2.2.1 rfl rfl rfl rfl,
   (bootstrap_atomicity wBootEnvCreateFail wImgEnvAuthFail).2.2.2 rfl rfl rfl rfl rfl⟩

/-- Counterexample to C9: at the concrete environment `wImgEnvNoRobot` (all
parameters present, `createRobot` failing) the bootstrap performed by
`SpotImagePublisher::initialize` fails, yet the construction of the owning
`SpotImagePublisherNode` succeeds, because its constructor discards the `Bool`
returned by `initialize`. So bootstrap failure does not imply construction
failure for every component whose construction performs the bootstrap. -/
theorem bootstrap_construction_counterexample :
    (spotImagePublisherInit wImgEnvNoRobot).1 = false ∧
    resultIsOk (spotImagePublisherNodeConstruct wImgEnvNoRobot).1 = true := by
  constructor <;> rfl

/-- C9 as amended: when the bootstrap of `StatePublisherNode` fails to complete
all three steps, construction fails; when the bootstrap performed by
`SpotImagePublisher::initialize` fails, construction of the owning
`SpotImagePublisherNode` nevertheless succeeds, but the constructed instance
has no timer registered and no image request message, and its timer callback
publishes nothing — so no constructed component can begin ticking usefully
after a failed bootstrap, even though image-node construction itself does not
fail. -/
theorem bootstrap_construction_amended (env : BootEnv) (imgEnv : ImageEnv) :
    (¬ (resultIsOk env.createRobot = true ∧ resultIsOk env.authenticate = true ∧
        resultIsOk env.stateClientInterface = true) →
      resultIsOk (statePublisherNodeConstruct env).1 = false) ∧
    ((spotImagePublisherInit imgEnv).1 = false →
      (resultIsOk (spotImagePublisherNodeConstruct imgEnv).1 = true ∧
       (spotImagePublisherInit imgEnv).2.1.timerSet = false ∧
       (spotImagePublisherInit imgEnv).2.1.imageRequestMessage = none ∧
       spotImagePublisherTimerCallback (spotImagePublisherInit imgEnv).2.1 imgEnv = [])) := by
  constructor
  · intro hfail
    rcases hc : env.createRobot with e | u
    · simp [statePublisherNodeConstruct, hc, resultIsOk]
    · rcases hauth : env.authenticate with e | u2
      · simp [statePublisherNodeConstruct, hc, hauth, resultIsOk]
      · rcases hsc : env.stateClientInterface with e | u3
        · simp [statePublisherNodeConstruct, hc, hauth, hsc, resultIsOk]
        · exact absurd ⟨by rw [hc]; rfl, by rw [hauth]; rfl, by rw [hsc]; rfl⟩ hfail
  · intro hfail
    have hstate : (spotImagePublisherInit imgEnv).2.1 = ImgState.fresh := by
      unfold spotImagePublisherInit at hfail ⊢
      rcases hadr : imgEnv.address with _ | address
      · simp [hadr]
      rcases husr : imgEnv.username with _ | username
      · simp [hadr, husr]
      rcases hpwd : imgEnv.password with _ | password
      · simp [hadr, husr, hpwd]
      rcases hcr : imgEnv.createRobotOk
      · simp [hadr, husr, hpwd, hcr]
      rcases hau : imgEnv.authenticateOk
      · simp [hadr, husr, hpwd, hcr, hau]
      · simp [hadr, husr, hpwd, hcr, hau] at hfail
    refine ⟨rfl, ?_, ?_, ?_⟩
    · rw [hstate]; rfl
    · rw [hstate]; rfl
    · rw [hstate]; rfl

/-- Witness for the amended C9 at the tests' concrete failing inputs. -/
theorem bootstrap_construction_amended_witness :
    resultIsOk (statePublisherNodeConstruct wBootEnvCreateFail).1 = false ∧
    (resultIsOk (spotImagePublisherNodeConstruct wImgEnvNoRobot).1 = true ∧
     (spotImagePublisherInit wImgEnvNoRobot).2.1.timerSet = false ∧
     (spotImagePublisherInit wImgEnvNoRobot).2.1.imageRequestMessage = none ∧
     spotImagePublisherTimerCallback (spotImagePublisherInit wImgEnvNoRobot).2.1
       wImgEnvNoRobot = []) :=
  ⟨(bootstrap_construction_amended wBootEnvCreateFail wImgEnvNoRobot).1
     (by intro h; exact Bool.noConfusion h.1),
   (bootstrap_construction_amended wBootEnvCreateFail wImgEnvNoRobot).2 rfl⟩

/-- C10: for every invocation of `SpotImagePublisher::timerCallback`,
`publishImages` is called exactly once with the fetched image set precisely
when the image request message has been initialized and `getImages` returns a
value; in every other case the callback returns early, publishing nothing and
logging nothing (no `std::cerr` write ever occurs in the callback, unlike a
failed state-publisher tick which logs exactly once). -/
theorem image_timer_callback (st : ImgState) (env : ImageEnv) :
    (∀ request images, st.imageRequestMessage = some request →
      env.getImages request = some images →
      spotImagePublisherTimerCallback st env =
        [.callGetImages request, .callPublishImages images]) ∧
    (st.imageRequestMessage = none → spotImagePublisherTimerCallback st env = []) ∧
    (∀ request, st.imageRequestMessage = some request → env.getImages request = none →
      spotImagePublisherTimerCallback st env = [.callGetImages request]) ∧
    (spotImagePublisherTimerCallback st env).countP ImgEvent.isPublishImages ≤ 1 ∧
    (spotImagePublisherTimerCallback st env).countP ImgEvent.isCerr = 0 := by
  refine ⟨?_, ?_, ?_, ?_, ?_⟩
  · intro request images hreq himg
    simp [spotImagePublisherTimerCallback, hreq, himg]
  · intro hreq
    simp [spotImagePublisherTimerCallback, hreq]
  · intro request hreq himg
    simp [spotImagePublisherTimerCallback, hreq, himg]
  · rcases h0 : st.imageRequestMessage with _ | request
    · simp [spotImagePublisherTimerCallback, h0]
    · rcases h1 : env.getImages request with _ | images <;>
        simp [spotImagePublisherTimerCallback, h0, h1, List.countP_cons,
          ImgEvent.isPublishImages]
  · rcases h0 : st.imageRequestMessage with _ | request
    · simp [spotImagePublisherTimerCallback, h0]
    · rcases h1 : env.getImages request with _ | images <;>
        simp [spotImagePublisherTimerCallback, h0, h1, List.countP_cons, ImgEvent.isCerr]

/-- Witness for C10 at a concrete state holding an initialized request, in the
environment `wImgEnvOk` whose `getImages` returns one image. -/
theorem image_timer_callback_witness :
    spotImagePublisherTimerCallback
        { imageRequestMessage := some [], timerSet := true } wImgEnvOk =
      [.callGetImages [], .callPublishImages [(⟨"frontleft", .RGB⟩, "imagedata")]] :=
  (image_timer_callback { imageRequestMessage := some [], timerSet := true } wImgEnvOk).1
    [] [(⟨"frontleft", .RGB⟩, "imagedata")] rfl rfl

end SpotRos2
